import Mathlib

/-!
Shallow embedding of the Stripe webhook forwarder (src/index.js):
the event simplifier, the redirect-preserving POST forwarder, and the
request handler state machine, together with theorems about them.
-/

/-- Model of JavaScript string-or-default via the `||` operator: the
default is taken when the field is absent or the empty string (falsy). -/
def jsOrStr (v : Option String) (d : String) : String :=
  match v with
  | some s => if s = "" then d else s
  | none => d

/-- Model of truncate_(s, n): s.length > n ? s.slice(0, n) + "..." : s. -/
def truncate_ (s : String) (n : Nat) : String :=
  if s.length > n then (s.take n) ++ "..." else s

/-- Left-pad a decimal numeral with zeros to the given width. -/
def padZeros (w n : Nat) : String :=
  let s := toString n
  if s.length < w then String.mk (List.replicate (w - s.length) '0') ++ s else s

/-- Civil date from a count of days since 1970-01-01 (proleptic Gregorian),
returning (year, month, day). Standard era-based conversion. -/
def civilFromDays (z : Nat) : Nat × Nat × Nat :=
  let z' := z + 719468
  let era := z' / 146097
  let doe := z' % 146097
  let yoe := (doe - doe / 1460 + doe / 36524 - doe / 146096) / 365
  let doy := doe - (365 * yoe + yoe / 4 - yoe / 100)
  let mp := (5 * doy + 2) / 153
  let d := doy - (153 * mp + 2) / 5 + 1
  let m := if mp < 10 then mp + 3 else mp - 9
  let y := era * 400 + yoe + (if m ≤ 2 then 1 else 0)
  (y, m, d)

/-- Formatting part of new Date(ms).toISOString() for an in-range,
non-negative count of milliseconds since the epoch:
"YYYY-MM-DDTHH:MM:SS.mmmZ", with the expanded "+YYYYYY" year form JS uses
beyond year 9999. The range check lives in jsToISOString. -/
def toISOString (ms : Nat) : String :=
  let sec := ms / 1000
  let milli := ms % 1000
  let days := sec / 86400
  let rem := sec % 86400
  let ymd := civilFromDays days
  (if ymd.1 > 9999 then "+" ++ padZeros 6 ymd.1 else padZeros 4 ymd.1) ++ "-" ++
    padZeros 2 ymd.2.1 ++ "-" ++ padZeros 2 ymd.2.2 ++
    "T" ++ padZeros 2 (rem / 3600) ++ ":" ++ padZeros 2 (rem % 3600 / 60) ++
    ":" ++ padZeros 2 (rem % 60) ++ "." ++ padZeros 3 milli ++ "Z"

/-- Model of new Date(ms).toISOString() including its failure mode: a
time value beyond the maximum JS date range of 8.64e15 milliseconds makes
Date.prototype.toISOString throw a RangeError (invalid time value). -/
def jsToISOString (ms : Nat) : Except String String :=
  if ms > 8640000000000000 then Except.error "RangeError"
  else Except.ok (toISOString ms)

/-- The status_transitions sub-object of a Stripe invoice object. -/
structure StatusTransitions where
  paid_at : Option Nat
deriving DecidableEq

/-- The event.data.object payload: every field the simplifier reads,
each optional because the inbound JSON is untyped. -/
structure InvoiceObj where
  id : Option String
  status : Option String
  hosted_invoice_url : Option String
  amount_due : Option Int
  currency : Option String
  created : Option Nat
  status_transitions : Option StatusTransitions
  customer : Option String
  number : Option String
  metadata : Option (List (String × String))
  object : Option String
deriving DecidableEq

/-- The empty object used when event.data.object is absent. -/
def InvoiceObj.empty : InvoiceObj :=
  { id := none, status := none, hosted_invoice_url := none, amount_due := none,
    currency := none, created := none, status_transitions := none,
    customer := none, number := none, metadata := none, object := none }

/-- The data part of a Stripe event. -/
structure EventData where
  object : Option InvoiceObj
deriving DecidableEq

/-- A parsed Stripe event. The type field is optional so that the
behaviour of the simplifier on an event with no type can be stated. -/
structure StripeEvent where
  id : String
  type : Option String
  data : Option EventData
deriving DecidableEq

/-- Model of const obj = event?.data?.object || \x7b\x7d. -/
def eventObj (event : StripeEvent) : InvoiceObj :=
  ((event.data.bind EventData.object)).getD InvoiceObj.empty

/-- The InvoiceVariant of the simplified payload. Field order follows the
object literal in simplifyStripeEvent_. -/
structure InvoicePayload where
  invoiceId : String
  status : String
  hostedInvoiceUrl : String
  amountDue : Option ℚ
  currency : String
  createdAt : String
  paidAt : String
  customer : String
  number : String
  metadata : List (String × String)
deriving DecidableEq

/-- The GenericVariant of the simplified payload. -/
structure GenericPayload where
  rawType : String
  objectId : String
  objectType : String
deriving DecidableEq

/-- The simplified payload: a tagged variant. -/
inductive SimplifiedPayload where
  | invoice : InvoicePayload → SimplifiedPayload
  | generic : GenericPayload → SimplifiedPayload
deriving DecidableEq

/-- Model of JS s.startsWith(p): the characters of p are a prefix of the
characters of s. -/
def jsStartsWith (s p : String) : Bool :=
  p.data.isPrefixOf s.data

/-- Model of the ternary t ? new Date(t * 1000).toISOString() : "" on an
optional unix-seconds timestamp: absent and 0 are both falsy; a truthy
out-of-range value propagates the RangeError of toISOString. -/
def jsTimestampToIso (t : Option Nat) : Except String String :=
  match t with
  | some c => if c = 0 then Except.ok "" else jsToISOString (c * 1000)
  | none => Except.ok ""

/-- Model of simplifyStripeEvent_(event). An event whose type field is
absent makes event.type.startsWith("invoice.") throw a TypeError, and a
truthy out-of-range created or paid_at timestamp makes
new Date(...).toISOString() throw a RangeError (created is evaluated
first, as in the source); both are modelled as Except.error. Timestamp
fields use truthiness (0 is falsy), amount_due uses an explicit non-null
check, and currency falls back to "usd". -/
def simplifyStripeEvent_ (event : StripeEvent) : Except String SimplifiedPayload :=
  match event.type with
  | none => Except.error "TypeError"
  | some ty =>
    let obj := eventObj event
    if jsStartsWith ty "invoice." then
      match jsTimestampToIso obj.created with
      | Except.error e => Except.error e
      | Except.ok created =>
      match jsTimestampToIso (obj.status_transitions.bind StatusTransitions.paid_at) with
      | Except.error e => Except.error e
      | Except.ok paidAt =>
      Except.ok (SimplifiedPayload.invoice
        { invoiceId := jsOrStr obj.id ""
          status := jsOrStr obj.status ""
          hostedInvoiceUrl := jsOrStr obj.hosted_invoice_url ""
          amountDue := obj.amount_due.map (fun n : Int => (n : ℚ) / 100)
          currency := jsOrStr obj.currency "usd"
          createdAt := created
          paidAt := paidAt
          customer := jsOrStr obj.customer ""
          number := jsOrStr obj.number ""
          metadata := obj.metadata.getD [] })
    else
      Except.ok (SimplifiedPayload.generic
        { rawType := ty
          objectId := jsOrStr obj.id ""
          objectType := jsOrStr obj.object "" })

/-- An HTTP response as seen by the forwarder: status, the location
header (if any), and the body text. -/
structure Resp where
  status : Nat
  location : Option String
  text : String
deriving DecidableEq

/-- Model of the fetch Response.ok flag: status in the range 200-299. -/
def respOk (r : Resp) : Bool :=
  decide (200 ≤ r.status) && decide (r.status ≤ 299)

/-- Model of [301, 302, 303, 307, 308].includes(status). -/
def isRedirectStatus (s : Nat) : Bool :=
  s = 301 || s = 302 || s = 303 || s = 307 || s = 308

/-- JS truthiness of the location header value: absent (null) and the
empty string are falsy. -/
def locTruthy (l : Option String) : Bool :=
  match l with
  | some s => !(s = "")
  | none => false

/-- One outbound HTTP request issued by the forwarder. -/
structure Request where
  method : String
  url : String
  headers : List (String × String)
  body : String
deriving DecidableEq

/-- The result record returned by postJsonPreservePostAcrossRedirects_. -/
structure ForwardOutcome where
  ok : Bool
  status : Nat
  finalUrl : String
  text : String
  hops : Nat
deriving DecidableEq

/-- The while (hops < 5) loop of postJsonPreservePostAcrossRedirects_,
written with explicit fuel (fuel = 5 - hops). The transport maps a call
index and URL to the response; resolveUrl models new URL(loc, base).
Besides the outcome, the list of outbound requests issued is returned. -/
def forwardLoop (resolveUrl : String → String → String)
    (transport : Nat → String → Resp) (headers : List (String × String))
    (body : String) :
    Nat → Nat → String → Nat → String → Nat → ForwardOutcome × List Request
  | 0, hops, currentUrl, lastStatus, lastText, _ =>
      ({ ok := false
         status := if lastStatus = 0 then 0 else lastStatus
         finalUrl := currentUrl
         text := "Too many redirects. Last body: " ++ truncate_ lastText 200
         hops := hops }, [])
  | Nat.succ fuel, hops, currentUrl, _, _, callIdx =>
      let resp := transport callIdx currentUrl
      let req : Request :=
        { method := "POST", url := currentUrl, headers := headers, body := body }
      if respOk resp then
        ({ ok := true, status := resp.status, finalUrl := currentUrl,
           text := resp.text, hops := hops }, [req])
      else if isRedirectStatus resp.status && locTruthy resp.location then
        let nextUrl := resolveUrl (resp.location.getD "") currentUrl
        let rest := forwardLoop resolveUrl transport headers body fuel
          (hops + 1) nextUrl resp.status resp.text (callIdx + 1)
        (rest.1, req :: rest.2)
      else
        ({ ok := false, status := resp.status, finalUrl := currentUrl,
           text := resp.text, hops := hops }, [req])

/-- Model of postJsonPreservePostAcrossRedirects_(url, obj): the body is
the already-serialized envelope, computed once before the loop; every
request carries the same JSON content-type header and the same body. -/
def postJsonPreservePostAcrossRedirects_ (resolveUrl : String → String → String)
    (transport : Nat → String → Resp) (url : String) (body : String) :
    ForwardOutcome × List Request :=
  forwardLoop resolveUrl transport [("Content-Type", "application/json")] body 5 0 url 0 "" 0

/-- The configuration read from the environment (after trim). -/
structure Config where
  appsScriptWebhookUrl : String
  billingWebhookSharedSecret : String
  allowedTypes : List String

/-- The outcome of Stripe signature verification on an inbound request:
header absent, verification failure, or a verified parsed event. -/
inductive SigCheck where
  | missing : SigCheck
  | invalid : SigCheck
  | valid : StripeEvent → SigCheck

/-- The forwardBody object built by the handler. -/
structure ForwardEnvelope where
  sharedSecret : String
  eventId : String
  type : Option String
  data : SimplifiedPayload

/-- The response produced by the handler together with every outbound
request issued while producing it. -/
structure HandlerResult where
  status : Nat
  body : String
  requests : List Request
deriving DecidableEq

/-- Model of allowedTypes.has(event.type); a Set of strings never
contains undefined, and membership is case-sensitive exact match. -/
def isAllowed (eventType : Option String) (allowSet : List String) : Bool :=
  match eventType with
  | some t => allowSet.contains t
  | none => false

/-- Model of the app.post("/stripe-webhook") handler: signature check,
allow-list filter, configuration check, simplify (a thrown TypeError is
caught by the outer try and mapped to 500), then forward. -/
def handleStripeWebhook (cfg : Config) (resolveUrl : String → String → String)
    (transport : Nat → String → Resp) (enc : ForwardEnvelope → String)
    (sig : SigCheck) : HandlerResult :=
  match sig with
  | SigCheck.missing =>
      { status := 400, body := "Missing Stripe-Signature header", requests := [] }
  | SigCheck.invalid =>
      { status := 400, body := "Bad signature", requests := [] }
  | SigCheck.valid event =>
      if isAllowed event.type cfg.allowedTypes = false then
        { status := 200, body := "Ignored", requests := [] }
      else if cfg.appsScriptWebhookUrl = "" ∨ cfg.billingWebhookSharedSecret = "" then
        { status := 500, body := "Server misconfigured", requests := [] }
      else
        match simplifyStripeEvent_ event with
        | Except.error _ =>
            { status := 500, body := "Server error", requests := [] }
        | Except.ok simplified =>
            let envelope : ForwardEnvelope :=
              { sharedSecret := cfg.billingWebhookSharedSecret
                eventId := event.id
                type := event.type
                data := simplified }
            let result := postJsonPreservePostAcrossRedirects_ resolveUrl transport
              cfg.appsScriptWebhookUrl (enc envelope)
            if result.1.ok then
              { status := 200, body := "Forwarded OK", requests := result.2 }
            else
              { status := 502, body := "Forward failed", requests := result.2 }

/-- Sanity check of the Date model at the instant the spec names. -/
theorem toISOString_nov14_2023 : toISOString (1700000000 * 1000) = "2023-11-14T22:13:20.000Z" := by decide

/-- Unfolding lemma: the exhausted case of the forwarding loop. -/
theorem forwardLoop_zero (resolveUrl : String → String → String)
    (transport : Nat → String → Resp) (headers : List (String × String))
    (body : String) (hops : Nat) (currentUrl : String) (lastStatus : Nat)
    (lastText : String) (callIdx : Nat) :
    forwardLoop resolveUrl transport headers body 0 hops currentUrl lastStatus lastText callIdx =
      ({ ok := false
         status := if lastStatus = 0 then 0 else lastStatus
         finalUrl := currentUrl
         text := "Too many redirects. Last body: " ++ truncate_ lastText 200
         hops := hops }, []) := rfl

/-- Unfolding lemma: one fetch iteration of the forwarding loop. -/
theorem forwardLoop_step (resolveUrl : String → String → String)
    (transport : Nat → String → Resp) (headers : List (String × String))
    (body : String) (fuel hops : Nat) (currentUrl : String) (lastStatus : Nat)
    (lastText : String) (callIdx : Nat) :
    forwardLoop resolveUrl transport headers body (fuel + 1) hops currentUrl lastStatus lastText callIdx =
      (let resp := transport callIdx currentUrl
       let req : Request :=
         { method := "POST", url := currentUrl, headers := headers, body := body }
       if respOk resp then
         ({ ok := true, status := resp.status, finalUrl := currentUrl,
            text := resp.text, hops := hops }, [req])
       else if isRedirectStatus resp.status && locTruthy resp.location then
         let rest := forwardLoop resolveUrl transport headers body fuel
           (hops + 1) (resolveUrl (resp.location.getD "") currentUrl) resp.status
           resp.text (callIdx + 1)
         (rest.1, req :: rest.2)
       else
         ({ ok := false, status := resp.status, finalUrl := currentUrl,
            text := resp.text, hops := hops }, [req])) := rfl

/-- C2: when the destination answers 303 with a (non-empty) Location
header and the target it redirects to answers 2xx, the forwarder issues
exactly two POST requests with identical bodies and identical headers
(never GET), and reports ok = true with hop count 1. -/
theorem c2_redirect303_two_posts (resolveUrl : String → String → String)
    (transport : Nat → String → Resp) (url body loc t0 : String) (r1 : Resp)
    (hl : loc ≠ "")
    (h0 : transport 0 url = { status := 303, location := some loc, text := t0 })
    (h1 : transport 1 (resolveUrl loc url) = r1)
    (hok : respOk r1 = true) :
    postJsonPreservePostAcrossRedirects_ resolveUrl transport url body =
      ({ ok := true, status := r1.status, finalUrl := resolveUrl loc url,
         text := r1.text, hops := 1 },
       [{ method := "POST", url := url,
          headers := [("Content-Type", "application/json")], body := body },
        { method := "POST", url := resolveUrl loc url,
          headers := [("Content-Type", "application/json")], body := body }]) := by
  have h303 : respOk { status := 303, location := some loc, text := t0 } = false := rfl
  have hred : isRedirectStatus 303 = true := rfl
  have hlt : locTruthy (some loc) = true := by simp [locTruthy, hl]
  unfold postJsonPreservePostAcrossRedirects_
  rw [show (5 : Nat) = 4 + 1 from rfl, forwardLoop_step, h0]
  simp only [h303, hred, hlt, Bool.and_self, Bool.false_eq_true, if_false,
    if_true, Option.getD_some, Nat.zero_add]
  rw [show (4 : Nat) = 3 + 1 from rfl, forwardLoop_step, h1]
  simp [hok]

/-- Witness for C2: a destination answering 303 to a sibling URL that
answers 200 yields two identical POSTs, ok = true and one hop. -/
theorem c2_redirect303_two_posts_witness :
    postJsonPreservePostAcrossRedirects_ (fun l _ => l)
      (fun i _ =>
        if i = 0 then { status := 303, location := some "https://b/next", text := "see other" }
        else { status := 200, location := none, text := "done" })
      "https://a/hook" "envelope" =
      ({ ok := true, status := 200, finalUrl := "https://b/next", text := "done", hops := 1 },
       [{ method := "POST", url := "https://a/hook",
          headers := [("Content-Type", "application/json")], body := "envelope" },
        { method := "POST", url := "https://b/next",
          headers := [("Content-Type", "application/json")], body := "envelope" }]) :=
  c2_redirect303_two_posts (fun l _ => l)
    (fun i _ =>
      if i = 0 then { status := 303, location := some "https://b/next", text := "see other" }
      else { status := 200, location := none, text := "done" })
    "https://a/hook" "envelope" "https://b/next" "see other"
    { status := 200, location := none, text := "done" }
    (by decide) rfl rfl rfl

/-- C3 counterexample: a destination that always answers 302 with a
Location pointing back to itself makes the forwarder return, after the
hop limit, ok = false and hops = 5 but status 302 — not the status 0
sentinel the claim states, since the code computes lastStatus || 0 and
lastStatus is 302. -/
theorem c3_status_zero_counterexample :
    (postJsonPreservePostAcrossRedirects_ (fun l _ => l)
      (fun _ _ => { status := 302, location := some "https://a/hook", text := "loop" })
      "https://a/hook" "envelope").1 =
      { ok := false, status := 302, finalUrl := "https://a/hook",
        text := "Too many redirects. Last body: loop", hops := 5 } ∧
    (302 : Nat) ≠ 0 :=
  ⟨rfl, by decide⟩

/-- C3 as amended: after the hop limit of 5 is exhausted on a
self-redirecting 302 destination, the outcome has ok = false, hops = 5,
status equal to the last redirect status 302 (not the 0 sentinel, which
only appears if no fetch took place), and a body combining a fixed
explanatory prefix with the last response body truncated to 200
characters; five identical POST requests were issued. -/
theorem c3_redirect_exhaustion (resolveUrl : String → String → String)
    (transport : Nat → String → Resp) (url body txt : String)
    (hu : url ≠ "")
    (ht : ∀ i, transport i url = { status := 302, location := some url, text := txt })
    (hr : resolveUrl url url = url) :
    postJsonPreservePostAcrossRedirects_ resolveUrl transport url body =
      ({ ok := false, status := 302, finalUrl := url,
         text := "Too many redirects. Last body: " ++ truncate_ txt 200, hops := 5 },
       [{ method := "POST", url := url,
          headers := [("Content-Type", "application/json")], body := body },
        { method := "POST", url := url,
          headers := [("Content-Type", "application/json")], body := body },
        { method := "POST", url := url,
          headers := [("Content-Type", "application/json")], body := body },
        { method := "POST", url := url,
          headers := [("Content-Type", "application/json")], body := body },
        { method := "POST", url := url,
          headers := [("Content-Type", "application/json")], body := body }]) := by
  have h302 : respOk { status := 302, location := some url, text := txt } = false := rfl
  have hred : isRedirectStatus 302 = true := rfl
  have hlt : locTruthy (some url) = true := by simp [locTruthy, hu]
  unfold postJsonPreservePostAcrossRedirects_
  rw [show (5 : Nat) = 4 + 1 from rfl, forwardLoop_step]
  simp only [ht, h302, hred, hlt, Bool.and_self, Bool.false_eq_true, if_false,
    if_true, Option.getD_some, hr, Nat.zero_add]
  rw [show (4 : Nat) = 3 + 1 from rfl, forwardLoop_step]
  simp only [ht, h302, hred, hlt, Bool.and_self, Bool.false_eq_true, if_false,
    if_true, Option.getD_some, hr]
  rw [show (3 : Nat) = 2 + 1 from rfl, forwardLoop_step]
  simp only [ht, h302, hred, hlt, Bool.and_self, Bool.false_eq_true, if_false,
    if_true, Option.getD_some, hr]
  rw [show (2 : Nat) = 1 + 1 from rfl, forwardLoop_step]
  simp only [ht, h302, hred, hlt, Bool.and_self, Bool.false_eq_true, if_false,
    if_true, Option.getD_some, hr]
  rw [show (1 : Nat) = 0 + 1 from rfl, forwardLoop_step]
  simp only [ht, h302, hred, hlt, Bool.and_self, Bool.false_eq_true, if_false,
    if_true, Option.getD_some, hr, forwardLoop_zero]
  simp

/-- Witness for C3 as amended: a concrete self-redirecting destination. -/
theorem c3_redirect_exhaustion_witness :
    postJsonPreservePostAcrossRedirects_ (fun l _ => l)
      (fun _ _ => { status := 302, location := some "https://x/exec", text := "busy" })
      "https://x/exec" "payload" =
      ({ ok := false, status := 302, finalUrl := "https://x/exec",
         text := "Too many redirects. Last body: busy", hops := 5 },
       [{ method := "POST", url := "https://x/exec",
          headers := [("Content-Type", "application/json")], body := "payload" },
        { method := "POST", url := "https://x/exec",
          headers := [("Content-Type", "application/json")], body := "payload" },
        { method := "POST", url := "https://x/exec",
          headers := [("Content-Type", "application/json")], body := "payload" },
        { method := "POST", url := "https://x/exec",
          headers := [("Content-Type", "application/json")], body := "payload" },
        { method := "POST", url := "https://x/exec",
          headers := [("Content-Type", "application/json")], body := "payload" }]) :=
  c3_redirect_exhaustion (fun l _ => l)
    (fun _ _ => { status := 302, location := some "https://x/exec", text := "busy" })
    "https://x/exec" "payload" "busy" (by decide) (fun _ => rfl) rfl

/-- C1: for every inbound request whose signature header is present but
whose signature verification fails, the handler responds with HTTP status
400 and no outbound POST is issued, for any configuration and any
downstream transport. -/
theorem c1_invalid_signature_rejected (cfg : Config)
    (resolveUrl : String → String → String) (transport : Nat → String → Resp)
    (enc : ForwardEnvelope → String) :
    handleStripeWebhook cfg resolveUrl transport enc SigCheck.invalid =
      { status := 400, body := "Bad signature", requests := [] } := rfl

/-- C8: for every validly signed payload whose event type is not in the
allow-list (exact string match), the response is 200 with body "Ignored"
and no outbound request is issued, for any configuration (in particular
whether or not the destination URL and shared secret are configured,
since the filter check precedes the configuration check). -/
theorem c8_disallowed_type_ignored (cfg : Config)
    (resolveUrl : String → String → String) (transport : Nat → String → Resp)
    (enc : ForwardEnvelope → String) (event : StripeEvent)
    (h : isAllowed event.type cfg.allowedTypes = false) :
    handleStripeWebhook cfg resolveUrl transport enc (SigCheck.valid event) =
      { status := 200, body := "Ignored", requests := [] } := by
  simp [handleStripeWebhook, h]

/-- Witness for C8: a non-invoice event type against the default
allow-list, with the destination URL and shared secret both unset, is
still answered 200 "Ignored" rather than 500. -/
theorem c8_disallowed_type_ignored_witness :
    isAllowed (some "charge.succeeded")
      ["invoice.paid", "invoice.payment_failed", "invoice.finalized"] = false ∧
    handleStripeWebhook
      { appsScriptWebhookUrl := ""
        billingWebhookSharedSecret := ""
        allowedTypes := ["invoice.paid", "invoice.payment_failed", "invoice.finalized"] }
      (fun l _ => l) (fun _ _ => { status := 200, location := none, text := "" })
      (fun _ => "")
      (SigCheck.valid { id := "evt_1", type := some "charge.succeeded", data := none }) =
      { status := 200, body := "Ignored", requests := [] } :=
  ⟨by decide, c8_disallowed_type_ignored _ _ _ _ _ (by decide)⟩

/-- C9: for every validly signed payload with an allowed event type, if
the destination URL or the downstream shared secret is the empty string,
the response is 500 and no outbound request is issued. -/
theorem c9_misconfigured_returns_500 (cfg : Config)
    (resolveUrl : String → String → String) (transport : Nat → String → Resp)
    (enc : ForwardEnvelope → String) (event : StripeEvent)
    (hAllow : isAllowed event.type cfg.allowedTypes = true)
    (hcfg : cfg.appsScriptWebhookUrl = "" ∨ cfg.billingWebhookSharedSecret = "") :
    handleStripeWebhook cfg resolveUrl transport enc (SigCheck.valid event) =
      { status := 500, body := "Server misconfigured", requests := [] } := by
  rcases hcfg with h | h <;> simp [handleStripeWebhook, hAllow, h]

/-- Witness for C9: an allowed invoice event with the destination URL
unset yields 500 with no outbound request. -/
theorem c9_misconfigured_returns_500_witness :
    isAllowed (some "invoice.paid") ["invoice.paid"] = true ∧
    handleStripeWebhook
      { appsScriptWebhookUrl := ""
        billingWebhookSharedSecret := "sharedsecret"
        allowedTypes := ["invoice.paid"] }
      (fun l _ => l) (fun _ _ => { status := 200, location := none, text := "" })
      (fun _ => "")
      (SigCheck.valid { id := "evt_2", type := some "invoice.paid", data := none }) =
      { status := 500, body := "Server misconfigured", requests := [] } :=
  ⟨by decide, c9_misconfigured_returns_500 _ _ _ _ _ (by decide) (Or.inl rfl)⟩

/-- Helper: on an event whose type is present and has the invoice prefix,
and whose timestamp conversions succeed, the simplifier returns the
invoice variant built field by field from the event object. -/
theorem simplify_invoice_eq (ev : StripeEvent) (ty cs ps : String)
    (h1 : ev.type = some ty) (h2 : jsStartsWith ty "invoice." = true)
    (hc : jsTimestampToIso (eventObj ev).created = Except.ok cs)
    (hpa : jsTimestampToIso
      ((eventObj ev).status_transitions.bind StatusTransitions.paid_at) = Except.ok ps) :
    simplifyStripeEvent_ ev = Except.ok (SimplifiedPayload.invoice
      { invoiceId := jsOrStr (eventObj ev).id ""
        status := jsOrStr (eventObj ev).status ""
        hostedInvoiceUrl := jsOrStr (eventObj ev).hosted_invoice_url ""
        amountDue := ((eventObj ev).amount_due).map (fun n : Int => (n : ℚ) / 100)
        currency := jsOrStr (eventObj ev).currency "usd"
        createdAt := cs
        paidAt := ps
        customer := jsOrStr (eventObj ev).customer ""
        number := jsOrStr (eventObj ev).number ""
        metadata := ((eventObj ev).metadata).getD [] }) := by
  unfold simplifyStripeEvent_
  rw [h1]
  simp [h2, hc, hpa]

/-- Helper: a failing created conversion propagates out of the
simplifier on an invoice-typed event. -/
theorem simplify_created_error (ev : StripeEvent) (ty e : String)
    (h1 : ev.type = some ty) (h2 : jsStartsWith ty "invoice." = true)
    (hc : jsTimestampToIso (eventObj ev).created = Except.error e) :
    simplifyStripeEvent_ ev = Except.error e := by
  unfold simplifyStripeEvent_
  rw [h1]
  simp [h2, hc]

/-- Helper: a failing paid_at conversion propagates out of the
simplifier on an invoice-typed event whose created conversion succeeds. -/
theorem simplify_paidat_error (ev : StripeEvent) (ty cs e : String)
    (h1 : ev.type = some ty) (h2 : jsStartsWith ty "invoice." = true)
    (hc : jsTimestampToIso (eventObj ev).created = Except.ok cs)
    (hpa : jsTimestampToIso
      ((eventObj ev).status_transitions.bind StatusTransitions.paid_at) = Except.error e) :
    simplifyStripeEvent_ ev = Except.error e := by
  unfold simplifyStripeEvent_
  rw [h1]
  simp [h2, hc, hpa]

/-- Helper: equality of two ok-invoice results forces equality of the
payloads. -/
theorem invoice_result_injective (p q : InvoicePayload)
    (h : (Except.ok (SimplifiedPayload.invoice p) : Except String SimplifiedPayload) =
      Except.ok (SimplifiedPayload.invoice q)) : p = q := by
  injection h with h'
  injection h'

/-- Helper: an ok-invoice result of the simplifier determines every
field of the payload, and witnesses that both timestamp conversions
succeeded with the createdAt and paidAt values of the payload. -/
theorem invoice_payload_extract (ev : StripeEvent) (ty : String)
    (p : InvoicePayload) (h1 : ev.type = some ty)
    (h2 : jsStartsWith ty "invoice." = true)
    (hp : simplifyStripeEvent_ ev = Except.ok (SimplifiedPayload.invoice p)) :
    jsTimestampToIso (eventObj ev).created = Except.ok p.createdAt ∧
    jsTimestampToIso
      ((eventObj ev).status_transitions.bind StatusTransitions.paid_at) = Except.ok p.paidAt ∧
    p = { invoiceId := jsOrStr (eventObj ev).id ""
          status := jsOrStr (eventObj ev).status ""
          hostedInvoiceUrl := jsOrStr (eventObj ev).hosted_invoice_url ""
          amountDue := ((eventObj ev).amount_due).map (fun n : Int => (n : ℚ) / 100)
          currency := jsOrStr (eventObj ev).currency "usd"
          createdAt := p.createdAt
          paidAt := p.paidAt
          customer := jsOrStr (eventObj ev).customer ""
          number := jsOrStr (eventObj ev).number ""
          metadata := ((eventObj ev).metadata).getD [] } := by
  cases hcr : jsTimestampToIso (eventObj ev).created with
  | error e =>
      rw [simplify_created_error ev ty e h1 h2 hcr] at hp
      exact absurd hp (by simp)
  | ok cs =>
      cases hpr : jsTimestampToIso
          ((eventObj ev).status_transitions.bind StatusTransitions.paid_at) with
      | error e =>
          rw [simplify_paidat_error ev ty cs e h1 h2 hcr hpr] at hp
          exact absurd hp (by simp)
      | ok ps =>
          have hb := invoice_result_injective p _
            (hp ▸ simplify_invoice_eq ev ty cs ps h1 h2 hcr hpr)
          subst hb
          refine ⟨?_, ?_, ?_⟩
          · rfl
          · rfl
          · simp

/-- C4 counterexample: the simplifier is not total. An event with no
type field makes event.type.startsWith("invoice.") throw a TypeError,
and an invoice event with the truthy out-of-range timestamp
created = 10^13 seconds makes new Date(created * 1000).toISOString()
throw a RangeError; neither returns a SimplifiedPayload. -/
theorem c4_not_total_counterexample :
    simplifyStripeEvent_ { id := "evt_0", type := none, data := none } =
      Except.error "TypeError" ∧
    simplifyStripeEvent_ (StripeEvent.mk "evt_0b" (some "invoice.paid") (some (EventData.mk (some
      (InvoiceObj.mk none none none none none (some 10000000000000) none none none none none))))) =
      Except.error "RangeError" :=
  ⟨rfl, by rfl⟩

/-- C4 as amended: the simplifier returns a SimplifiedPayload without
error for every event whose type field is present (a string) and whose
truthy timestamp fields convert without error (they lie within the JS
Date range of 8.64e15 milliseconds); any missing nested field, including
a missing data.object, degrades to a documented default. It is not
total: a missing event type throws a TypeError, and a truthy
out-of-range timestamp throws a RangeError. -/
theorem c4_simplify_total_on_typed_events (ev : StripeEvent) (ty : String)
    (h : ev.type = some ty)
    (hc : (jsTimestampToIso (eventObj ev).created).isOk = true)
    (hpa : (jsTimestampToIso
      ((eventObj ev).status_transitions.bind StatusTransitions.paid_at)).isOk = true) :
    (simplifyStripeEvent_ ev).isOk = true := by
  by_cases hs : jsStartsWith ty "invoice." = true
  · cases hcr : jsTimestampToIso (eventObj ev).created with
    | error e => rw [hcr] at hc; simp [Except.isOk, Except.toBool] at hc
    | ok cs =>
      cases hpr : jsTimestampToIso
          ((eventObj ev).status_transitions.bind StatusTransitions.paid_at) with
      | error e => rw [hpr] at hpa; simp [Except.isOk, Except.toBool] at hpa
      | ok ps => rw [simplify_invoice_eq ev ty cs ps h hs hcr hpr]; rfl
  · unfold simplifyStripeEvent_
    rw [h]
    simp [hs, Except.isOk, Except.toBool]

/-- Witness for C4 as amended: an invoice event with no data at all
still simplifies without error (its timestamp conversions trivially
succeed). -/
theorem c4_simplify_total_on_typed_events_witness :
    (simplifyStripeEvent_ { id := "evt_4", type := some "invoice.paid", data := none }).isOk = true :=
  c4_simplify_total_on_typed_events
    { id := "evt_4", type := some "invoice.paid", data := none } "invoice.paid"
    rfl (by decide) (by decide)

/-- C5 counterexample: an invoice event with no currency field yields
currency = "usd", not the empty string the claim states (the code uses
obj.currency || "usd"). -/
theorem c5_currency_default_counterexample :
    simplifyStripeEvent_
      { id := "evt_5", type := some "invoice.paid",
        data := some { object := some InvoiceObj.empty } } =
      Except.ok (SimplifiedPayload.invoice
        { invoiceId := "", status := "", hostedInvoiceUrl := "", amountDue := none,
          currency := "usd", createdAt := "", paidAt := "", customer := "",
          number := "", metadata := [] }) ∧
    "usd" ≠ "" := ⟨by rfl, by decide⟩

/-- C5 as amended: for every invoice event, each absent text source
field other than currency yields the empty string, absent currency
yields "usd", and absent metadata yields the empty mapping. -/
theorem c5_absent_fields_default (ev : StripeEvent) (ty : String)
    (p : InvoicePayload) (h1 : ev.type = some ty)
    (h2 : jsStartsWith ty "invoice." = true)
    (hp : simplifyStripeEvent_ ev = Except.ok (SimplifiedPayload.invoice p)) :
    ((eventObj ev).id = none → p.invoiceId = "") ∧
    ((eventObj ev).status = none → p.status = "") ∧
    ((eventObj ev).hosted_invoice_url = none → p.hostedInvoiceUrl = "") ∧
    ((eventObj ev).customer = none → p.customer = "") ∧
    ((eventObj ev).number = none → p.number = "") ∧
    ((eventObj ev).currency = none → p.currency = "usd") ∧
    ((eventObj ev).metadata = none → p.metadata = []) := by
  obtain ⟨hc, hpa, hb⟩ := invoice_payload_extract ev ty p h1 h2 hp
  refine ⟨fun h => ?_, fun h => ?_, fun h => ?_, fun h => ?_, fun h => ?_,
    fun h => ?_, fun h => ?_⟩ <;> (rw [hb]; simp [jsOrStr, h])

/-- Witness for C5 as amended: an invoice event with an entirely empty
object gets every text default, currency "usd" and empty metadata. -/
theorem c5_absent_fields_default_witness :
    ((eventObj (StripeEvent.mk "evt_5w" (some "invoice.finalized") (some (EventData.mk none)))).id = none →
      (InvoicePayload.mk "" "" "" none "usd" "" "" "" "" []).invoiceId = "") ∧
    ((eventObj (StripeEvent.mk "evt_5w" (some "invoice.finalized") (some (EventData.mk none)))).status = none →
      (InvoicePayload.mk "" "" "" none "usd" "" "" "" "" []).status = "") ∧
    ((eventObj (StripeEvent.mk "evt_5w" (some "invoice.finalized") (some (EventData.mk none)))).hosted_invoice_url = none →
      (InvoicePayload.mk "" "" "" none "usd" "" "" "" "" []).hostedInvoiceUrl = "") ∧
    ((eventObj (StripeEvent.mk "evt_5w" (some "invoice.finalized") (some (EventData.mk none)))).customer = none →
      (InvoicePayload.mk "" "" "" none "usd" "" "" "" "" []).customer = "") ∧
    ((eventObj (StripeEvent.mk "evt_5w" (some "invoice.finalized") (some (EventData.mk none)))).number = none →
      (InvoicePayload.mk "" "" "" none "usd" "" "" "" "" []).number = "") ∧
    ((eventObj (StripeEvent.mk "evt_5w" (some "invoice.finalized") (some (EventData.mk none)))).currency = none →
      (InvoicePayload.mk "" "" "" none "usd" "" "" "" "" []).currency = "usd") ∧
    ((eventObj (StripeEvent.mk "evt_5w" (some "invoice.finalized") (some (EventData.mk none)))).metadata = none →
      (InvoicePayload.mk "" "" "" none "usd" "" "" "" "" []).metadata = []) :=
  c5_absent_fields_default
    (StripeEvent.mk "evt_5w" (some "invoice.finalized") (some (EventData.mk none)))
    "invoice.finalized" (InvoicePayload.mk "" "" "" none "usd" "" "" "" "" [])
    rfl (by decide) rfl

/-- C6: for every invoice event, the unix-seconds created timestamp is
converted to an ISO-8601 UTC string: created = 1700000000 yields exactly
"2023-11-14T22:13:20.000Z", and an absent created field yields the empty
string (not null, which does not inhabit the string-typed field). -/
theorem c6_time_conversion (ev : StripeEvent) (ty : String) (p : InvoicePayload)
    (h1 : ev.type = some ty) (h2 : jsStartsWith ty "invoice." = true)
    (hp : simplifyStripeEvent_ ev = Except.ok (SimplifiedPayload.invoice p)) :
    ((eventObj ev).created = some 1700000000 →
      p.createdAt = "2023-11-14T22:13:20.000Z") ∧
    ((eventObj ev).created = none → p.createdAt = "") := by
  obtain ⟨hc, hpa, hb⟩ := invoice_payload_extract ev ty p h1 h2 hp
  constructor
  · intro h
    rw [h] at hc
    rw [show jsTimestampToIso (some 1700000000) =
      Except.ok "2023-11-14T22:13:20.000Z" from rfl] at hc
    injection hc with h'
    exact h'.symm
  · intro h
    rw [h] at hc
    rw [show jsTimestampToIso none = Except.ok "" from rfl] at hc
    injection hc with h'
    exact h'.symm

/-- Witness for C6: an invoice event carrying created = 1700000000. -/
theorem c6_time_conversion_witness :
    ((eventObj (StripeEvent.mk "evt_6" (some "invoice.paid") (some (EventData.mk (some
        (InvoiceObj.mk none none none none none (some 1700000000) none none none none none)))))).created = some 1700000000 →
      (InvoicePayload.mk "" "" "" none "usd" "2023-11-14T22:13:20.000Z" "" "" "" []).createdAt = "2023-11-14T22:13:20.000Z") ∧
    ((eventObj (StripeEvent.mk "evt_6" (some "invoice.paid") (some (EventData.mk (some
        (InvoiceObj.mk none none none none none (some 1700000000) none none none none none)))))).created = none →
      (InvoicePayload.mk "" "" "" none "usd" "2023-11-14T22:13:20.000Z" "" "" "" []).createdAt = "") :=
  c6_time_conversion
    (StripeEvent.mk "evt_6" (some "invoice.paid") (some (EventData.mk (some
      (InvoiceObj.mk none none none none none (some 1700000000) none none none none none)))))
    "invoice.paid"
    (InvoicePayload.mk "" "" "" none "usd" "2023-11-14T22:13:20.000Z" "" "" "" [])
    rfl (by decide) (by rfl)

/-- C7: for every invoice event, the minor-unit integer amount_due is
divided by 100: 1050 yields 10.5; an absent amount_due yields null
(none), which is distinguishable from amount_due = 0, which yields 0. -/
theorem c7_amount_conversion (ev : StripeEvent) (ty : String) (p : InvoicePayload)
    (h1 : ev.type = some ty) (h2 : jsStartsWith ty "invoice." = true)
    (hp : simplifyStripeEvent_ ev = Except.ok (SimplifiedPayload.invoice p)) :
    ((eventObj ev).amount_due = some 1050 → p.amountDue = some (10.5 : ℚ)) ∧
    ((eventObj ev).amount_due = none → p.amountDue = none) ∧
    ((eventObj ev).amount_due = some 0 → p.amountDue = some 0) ∧
    some (0 : ℚ) ≠ (none : Option ℚ) := by
  obtain ⟨hc, hpa, hb⟩ := invoice_payload_extract ev ty p h1 h2 hp
  refine ⟨fun h => ?_, fun h => ?_, fun h => ?_, ?_⟩
  · rw [hb]; norm_num [h]
  · rw [hb]; simp [h]
  · rw [hb]; norm_num [h]
  · decide

/-- Witness for C7: an invoice event carrying amount_due = 1050. -/
theorem c7_amount_conversion_witness :
    ((eventObj (StripeEvent.mk "evt_7" (some "invoice.paid") (some (EventData.mk (some
        (InvoiceObj.mk none none none (some 1050) none none none none none none none)))))).amount_due = some 1050 →
      (InvoicePayload.mk "" "" "" (some (((1050 : Int) : ℚ) / 100)) "usd" "" "" "" "" []).amountDue = some (10.5 : ℚ)) ∧
    ((eventObj (StripeEvent.mk "evt_7" (some "invoice.paid") (some (EventData.mk (some
        (InvoiceObj.mk none none none (some 1050) none none none none none none none)))))).amount_due = none →
      (InvoicePayload.mk "" "" "" (some (((1050 : Int) : ℚ) / 100)) "usd" "" "" "" "" []).amountDue = none) ∧
    ((eventObj (StripeEvent.mk "evt_7" (some "invoice.paid") (some (EventData.mk (some
        (InvoiceObj.mk none none none (some 1050) none none none none none none none)))))).amount_due = some 0 →
      (InvoicePayload.mk "" "" "" (some (((1050 : Int) : ℚ) / 100)) "usd" "" "" "" "" []).amountDue = some 0) ∧
    some (0 : ℚ) ≠ (none : Option ℚ) :=
  c7_amount_conversion
    (StripeEvent.mk "evt_7" (some "invoice.paid") (some (EventData.mk (some
      (InvoiceObj.mk none none none (some 1050) none none none none none none none)))))
    "invoice.paid"
    (InvoicePayload.mk "" "" "" (some (((1050 : Int) : ℚ) / 100)) "usd" "" "" "" "" [])
    rfl (by decide) (by rfl)

/-- C10: for every invoice event, a created or status_transitions.paid_at
timestamp equal to 0 (a valid epoch instant) is treated as absent by the
truthiness test and yields the empty string, unlike amount_due = 0 which
is preserved as 0 by the explicit non-null check. -/
theorem c10_zero_timestamp_treated_absent (ev : StripeEvent) (ty : String)
    (p : InvoicePayload) (h1 : ev.type = some ty)
    (h2 : jsStartsWith ty "invoice." = true)
    (hp : simplifyStripeEvent_ ev = Except.ok (SimplifiedPayload.invoice p)) :
    ((eventObj ev).created = some 0 → p.createdAt = "") ∧
    ((eventObj ev).status_transitions.bind StatusTransitions.paid_at = some 0 →
      p.paidAt = "") ∧
    ((eventObj ev).amount_due = some 0 → p.amountDue = some 0) := by
  obtain ⟨hc, hpa, hb⟩ := invoice_payload_extract ev ty p h1 h2 hp
  refine ⟨fun h => ?_, fun h => ?_, fun h => ?_⟩
  · rw [h] at hc
    rw [show jsTimestampToIso (some 0) = Except.ok "" from rfl] at hc
    injection hc with h'
    exact h'.symm
  · rw [h] at hpa
    rw [show jsTimestampToIso (some 0) = Except.ok "" from rfl] at hpa
    injection hpa with h'
    exact h'.symm
  · rw [hb]; norm_num [h]

/-- Witness for C10: an invoice event with created = 0, paid_at = 0 and
amount_due = 0. -/
theorem c10_zero_timestamp_treated_absent_witness :
    ((eventObj (StripeEvent.mk "evt_10" (some "invoice.paid") (some (EventData.mk (some
        (InvoiceObj.mk none none none (some 0) none (some 0) (some (StatusTransitions.mk (some 0))) none none none none)))))).created = some 0 →
      (InvoicePayload.mk "" "" "" (some (((0 : Int) : ℚ) / 100)) "usd" "" "" "" "" []).createdAt = "") ∧
    ((eventObj (StripeEvent.mk "evt_10" (some "invoice.paid") (some (EventData.mk (some
        (InvoiceObj.mk none none none (some 0) none (some 0) (some (StatusTransitions.mk (some 0))) none none none none)))))).status_transitions.bind StatusTransitions.paid_at = some 0 →
      (InvoicePayload.mk "" "" "" (some (((0 : Int) : ℚ) / 100)) "usd" "" "" "" "" []).paidAt = "") ∧
    ((eventObj (StripeEvent.mk "evt_10" (some "invoice.paid") (some (EventData.mk (some
        (InvoiceObj.mk none none none (some 0) none (some 0) (some (StatusTransitions.mk (some 0))) none none none none)))))).amount_due = some 0 →
      (InvoicePayload.mk "" "" "" (some (((0 : Int) : ℚ) / 100)) "usd" "" "" "" "" []).amountDue = some 0) :=
  c10_zero_timestamp_treated_absent
    (StripeEvent.mk "evt_10" (some "invoice.paid") (some (EventData.mk (some
      (InvoiceObj.mk none none none (some 0) none (some 0) (some (StatusTransitions.mk (some 0))) none none none none)))))
    "invoice.paid"
    (InvoicePayload.mk "" "" "" (some (((0 : Int) : ℚ) / 100)) "usd" "" "" "" "" [])
    rfl (by decide) (by rfl)
